import Mathlib

/-!
Verification of `react-use-effect-cleaner` (`createEffectCleaner`).

The embedding follows the fullest source variant (the one with
`timeoutIds`, `intervalIds` and `callback` support): mutable state is the
single boolean `_stalled`; the proxy `handler.apply` either short-circuits
or forwards to the target; `clean` sets the flag and drives best-effort
cancellation. Side effects (aborting, cancelling, clearing timers,
invoking the callback, invoking an original mutator) are made observable
as explicit event traces; JavaScript exceptions are `Except` values.
-/

/-- JavaScript error values, identified by their message. -/
abbrev Err := String

/-- The fragment of JavaScript values the mutators touch: `undefined`,
booleans, numbers and strings. -/
inductive Value where
  | undef : Value
  | boolV (b : Bool) : Value
  | num (n : Int) : Value
  | str (s : String) : Value
deriving DecidableEq

/-- An original state-modifier function: given a receiver (`this`) and an
argument list it either returns a value or throws. -/
abbrev Fn := Value → List Value → Except Err Value

/-- The shared mutable guard state: the closure variable `_stalled`,
declared `let _stalled = false` at construction. -/
structure GuardState where
  stalled : Bool
deriving DecidableEq

/-- `handler.apply(stateModifier, thisArg, argArray)` from the source:
if `_stalled` is set, return immediately (JavaScript `return;` yields
`undefined`); otherwise forward `stateModifier.call(thisArg, ...argArray)`
and return its result unchanged. The middle component is the list of
calls made to the original function (receiver, arguments), so that
forwarding and non-forwarding are observable; the state is returned
unchanged because the handler only reads `_stalled`. -/
def wrapperInvoke (s : GuardState) (stateModifier : Fn) (thisArg : Value)
    (argArray : List Value) :
    GuardState × List (Value × List Value) × Except Err Value :=
  if s.stalled then (s, [], Except.ok Value.undef)
  else (s, [(thisArg, argArray)], stateModifier thisArg argArray)

/-- The model of the `abortController` option: an object whose `abort`
member, when present, either succeeds or throws. `abort = none` models an
object with no `abort` member, which the guard `if (abortController &&
abortController.abort)` skips. -/
structure AbortControllerM where
  abort : Option (Except Err Unit)

/-- The model of the `cancelTokenSource` option, shaped like
`AbortControllerM` but for the `cancel` member. -/
structure CancelTokenSourceM where
  cancel : Option (Except Err Unit)

/-- A heap of timer-id mapping objects: references (names) to mutable
objects whose own keys map to numeric timer handles. `timeoutIds` and
`intervalIds` are object references, so the caller can mutate the
referenced object between construction and `clean()`. Entry order models
JavaScript `Object.keys` insertion order. -/
abbrev Store := Nat → List (String × Int)

/-- `CreateEffectCleanerOpts`: every field optional, `none` models an
absent field. A callback is modelled by its outcome when invoked
(success or throw). -/
structure CreateEffectCleanerOpts where
  abortController : Option AbortControllerM
  cancelTokenSource : Option CancelTokenSourceM
  timeoutIds : Option Nat
  intervalIds : Option Nat
  callback : Option (Except Err Unit)

/-- Modelled from the spec: the default completion callback `noop`,
imported by the source from `./constants`, a file not present under
`src/`; the spec says the absent `onClean` hook is simply skipped, so the
default callback performs nothing and succeeds. -/
def noop : Except Err Unit := Except.ok ()

/-- Observable events produced by one `clean()` run, in program order. -/
inductive CleanEvent where
  | setStalled : CleanEvent
  | abortCalled : CleanEvent
  | cancelCalled : CleanEvent
  | intervalCleared (handle : Int) : CleanEvent
  | timeoutCleared (handle : Int) : CleanEvent
  | callbackCalled : CleanEvent
deriving DecidableEq

/-- One teardown step: the events it emits and whether it throws. -/
abbrev Step := List CleanEvent × Except Err Unit

/-- Sequencing of teardown steps: a throw in the first step skips the
second, as JavaScript exception propagation does. -/
def stepSeq (a b : Step) : Step :=
  match a.2 with
  | Except.ok _ => (a.1 ++ b.1, b.2)
  | Except.error e => (a.1, Except.error e)

/-- The `try { ... } catch (ex) { /* do nothing */ }` blocks of the
source: the step runs, its throw (if any) is discarded. -/
def stepSwallow (a : Step) : Step := (a.1, Except.ok ())

/-- `if (abortController && abortController.abort) { abortController.abort(); }`:
invokes `abort` when the option and the member are present. -/
def abortStep (opts : CreateEffectCleanerOpts) : Step :=
  match opts.abortController with
  | some ac =>
    match ac.abort with
    | some outcome => ([CleanEvent.abortCalled], outcome)
    | none => ([], Except.ok ())
  | none => ([], Except.ok ())

/-- `if (cancelTokenSource && cancelTokenSource.cancel) { cancelTokenSource.cancel(); }`. -/
def cancelStep (opts : CreateEffectCleanerOpts) : Step :=
  match opts.cancelTokenSource with
  | some cts =>
    match cts.cancel with
    | some outcome => ([CleanEvent.cancelCalled], outcome)
    | none => ([], Except.ok ())
  | none => ([], Except.ok ())

/-- `if (intervalIds) { Object.keys(intervalIds).forEach((key) =>
clearInterval(intervalIds[key])); }` — reads the referenced mapping from
the store at the moment it runs; `clearInterval` is total. -/
def intervalStep (opts : CreateEffectCleanerOpts) (store : Store) : Step :=
  match opts.intervalIds with
  | some r => ((store r).map fun kv => CleanEvent.intervalCleared kv.2, Except.ok ())
  | none => ([], Except.ok ())

/-- `if (timeoutIds) { Object.keys(timeoutIds).forEach((key) =>
clearTimeout(timeoutIds[key])); }`. -/
def timeoutStep (opts : CreateEffectCleanerOpts) (store : Store) : Step :=
  match opts.timeoutIds with
  | some r => ((store r).map fun kv => CleanEvent.timeoutCleared kv.2, Except.ok ())
  | none => ([], Except.ok ())

/-- `callback();` — the source invokes the callback with no surrounding
try/catch, so its throw propagates out of `clean`. When the caller
supplied no callback the default `noop` runs, which is unobservable and
succeeds. -/
def callbackStep (opts : CreateEffectCleanerOpts) : Step :=
  match opts.callback with
  | some cb => ([CleanEvent.callbackCalled], cb)
  | none => ([], noop)

/-- `proxies.clean = () => { _stalled = true; ...; callback(); }` from
the source, in source order: write the flag, then the guarded abort, the
guarded cancel, the interval clears, the timeout clears, and finally the
callback. The input state is overwritten, never read. The result is the
new guard state, the emitted events, and whether the call throws. -/
def clean (opts : CreateEffectCleanerOpts) (store : Store) (_s : GuardState) :
    GuardState × Step :=
  ({ stalled := true },
    stepSeq ([CleanEvent.setStalled], Except.ok ())
      (stepSeq (stepSwallow (abortStep opts))
        (stepSeq (stepSwallow (cancelStep opts))
          (stepSeq (intervalStep opts store)
            (stepSeq (timeoutStep opts store) (callbackStep opts))))))

/-- The events emitted by one `clean()` run. -/
def cleanEvents (opts : CreateEffectCleanerOpts) (store : Store)
    (s : GuardState) : List CleanEvent :=
  (clean opts store s).2.1

/-- The outcome of one `clean()` run: `ok` when nothing escapes to the
caller, `error` when an exception does. -/
def cleanResult (opts : CreateEffectCleanerOpts) (store : Store)
    (s : GuardState) : Except Err Unit :=
  (clean opts store s).2.2

/-- An entry of the returned object: either a proxy wrapping the
state modifier stored under `key`, or the teardown closure assigned by
`proxies.clean = ...`. -/
inductive Entry where
  | proxy (key : String) : Entry
  | cleanEntry : Entry
deriving DecidableEq

/-- JavaScript property assignment `o[k] = v` on an object modelled as an
ordered key-value list: replace in place when the key exists, append
otherwise. -/
def setProp (o : List (String × Entry)) (k : String) (v : Entry) :
    List (String × Entry) :=
  if o.any fun p => p.1 = k then
    o.map fun p => if p.1 = k then (k, v) else p
  else o ++ [(k, v)]

/-- JavaScript property read `o[k]`. -/
def getProp (o : List (String × Entry)) (k : String) : Option Entry :=
  (o.find? fun p => p.1 = k).map Prod.snd

/-- `Object.keys(stateModifiers || {}).reduce((result, key) => {
result[key] = new Proxy(stateModifier, handler); return result; }, {})`:
builds the proxy object, one wrapper per key. -/
def buildProxies (keys : List String) : List (String × Entry) :=
  keys.foldl (fun result key => setProp result key (Entry.proxy key)) []

/-- `createEffectCleaner(stateModifiers, opts)`, as a function of
`Object.keys(stateModifiers)`: builds the proxies, then assigns the
teardown closure under the key `clean` (overwriting any proxy already
there), and allocates the shared flag initialised to `false`. The options
and the original functions are captured by closure and consumed by
`clean` and `wrapperInvoke` respectively; construction itself reads
neither the timer stores nor the flag. -/
def createEffectCleaner (keys : List String) :
    List (String × Entry) × GuardState :=
  (setProp (buildProxies keys) "clean" Entry.cleanEntry, { stalled := false })

/-- One operation on the shared guard state after construction: a call to
some wrapped mutator, or a call to `clean`. -/
inductive GuardOp where
  | wrapperCall (stateModifier : Fn) (thisArg : Value) (argArray : List Value) : GuardOp
  | cleanCall (opts : CreateEffectCleanerOpts) (store : Store) : GuardOp

/-- Whether the operation is a `clean()` call. -/
def GuardOp.isClean : GuardOp → Bool
  | .wrapperCall _ _ _ => false
  | .cleanCall _ _ => true

/-- The effect of one operation on the shared guard state. -/
def stepState : GuardOp → GuardState → GuardState
  | .wrapperCall f t a, s => (wrapperInvoke s f t a).1
  | .cleanCall opts store, s => (clean opts store s).1

/-- Runs a sequence of operations on the shared guard state. -/
def runOps (ops : List GuardOp) (s : GuardState) : GuardState :=
  ops.foldl (fun st op => stepState op st) s

/-- The interval mapping `clean` reads, at the moment it runs. -/
def intervalEntries (opts : CreateEffectCleanerOpts) (store : Store) :
    List (String × Int) :=
  match opts.intervalIds with
  | some r => store r
  | none => []

/-- The timeout mapping `clean` reads, at the moment it runs. -/
def timeoutEntries (opts : CreateEffectCleanerOpts) (store : Store) :
    List (String × Int) :=
  match opts.timeoutIds with
  | some r => store r
  | none => []

/-- Whether an event is a timer-clearing side effect. -/
def CleanEvent.isTimerClear : CleanEvent → Bool
  | .intervalCleared _ => true
  | .timeoutCleared _ => true
  | _ => false

/-- In-place mutation of the timer mapping object referenced by `r`, as a
caller scheduling or cancelling timers would perform between construction
and teardown. -/
def updateStore (store : Store) (r : Nat) (m : List (String × Int)) : Store :=
  fun r2 => if r2 = r then m else store r2

/-- Whether the supplied callback option cannot throw: absent, or
succeeding when invoked. -/
def callbackSafe : Option (Except Err Unit) → Bool
  | none => true
  | some (Except.ok _) => true
  | some (Except.error _) => false

/-- The store with no timer handles registered anywhere. -/
def emptyStore : Store := fun _ => []

/-- The guard state as allocated at construction. -/
def initialState : GuardState := { stalled := false }

/-- A sample state modifier used by concrete witnesses: returns the
number of arguments it received. -/
def sampleFn : Fn := fun _ args => Except.ok (Value.num args.length)

/-- A configuration whose `onClean` callback throws. -/
def throwingCallbackOpts : CreateEffectCleanerOpts :=
  { abortController := none
    cancelTokenSource := none
    timeoutIds := none
    intervalIds := none
    callback := some (Except.error "boom") }

/-- A configuration where both cancellation sources throw, timer mappings
are present, and no callback is supplied. -/
def throwingSourcesOpts : CreateEffectCleanerOpts :=
  { abortController := some { abort := some (Except.error "abort failed") }
    cancelTokenSource := some { cancel := some (Except.error "cancel failed") }
    timeoutIds := some 0
    intervalIds := some 1
    callback := none }

/-- A configuration with an abort source and a callback, both
well-behaved, used to observe duplicated side effects of a second
`clean()`. -/
def dupOpts : CreateEffectCleanerOpts :=
  { abortController := some { abort := some (Except.ok ()) }
    cancelTokenSource := none
    timeoutIds := none
    intervalIds := none
    callback := some (Except.ok ()) }

/-- The guard state after a first `clean()` call under `dupOpts`. -/
def stateAfterFirstClean : GuardState :=
  (clean dupOpts emptyStore initialState).1

/-- A configuration with one timeout mapping (reference 0) and one
interval mapping (reference 1) and nothing else. -/
def timersOnlyOpts : CreateEffectCleanerOpts :=
  { abortController := none
    cancelTokenSource := none
    timeoutIds := some 0
    intervalIds := some 1
    callback := none }

/-- A store holding timeout handle 123 under key `a` at reference 0 and
interval handle 456 under key `b` at reference 1. -/
def timersStore : Store :=
  fun r => if r = 0 then [("a", 123)] else if r = 1 then [("b", 456)] else []

/-- An abort source that throws `Error("x")`, as in the spec scenario. -/
def abortX : AbortControllerM := { abort := some (Except.error "x") }

/-- The spec scenario configuration: an abort source throwing
`Error("x")`, a well-behaved cancel source, both timer mappings, and a
well-behaved `onClean`. -/
def abortThrowScenarioOpts : CreateEffectCleanerOpts :=
  { abortController := some abortX
    cancelTokenSource := some { cancel := some (Except.ok ()) }
    timeoutIds := some 0
    intervalIds := some 1
    callback := some (Except.ok ()) }

/-! ## Helper lemmas -/

theorem wrapperInvoke_fst (s : GuardState) (f : Fn) (t : Value)
    (a : List Value) : (wrapperInvoke s f t a).1 = s := by
  unfold wrapperInvoke
  split <;> rfl

theorem intervalStep_snd (opts : CreateEffectCleanerOpts) (store : Store) :
    (intervalStep opts store).2 = Except.ok () := by
  unfold intervalStep
  cases opts.intervalIds <;> rfl

theorem timeoutStep_snd (opts : CreateEffectCleanerOpts) (store : Store) :
    (timeoutStep opts store).2 = Except.ok () := by
  unfold timeoutStep
  cases opts.timeoutIds <;> rfl

theorem cleanEvents_shape (opts : CreateEffectCleanerOpts) (store : Store)
    (s : GuardState) :
    cleanEvents opts store s =
      CleanEvent.setStalled ::
        ((abortStep opts).1 ++ ((cancelStep opts).1 ++
          ((intervalStep opts store).1 ++ ((timeoutStep opts store).1 ++
            (callbackStep opts).1)))) := by
  have hI := intervalStep_snd opts store
  have hT := timeoutStep_snd opts store
  simp only [cleanEvents, clean, stepSeq, stepSwallow, hI, hT]
  rfl

theorem cleanResult_eq (opts : CreateEffectCleanerOpts) (store : Store)
    (s : GuardState) :
    cleanResult opts store s = (callbackStep opts).2 := by
  have hI := intervalStep_snd opts store
  have hT := timeoutStep_snd opts store
  simp only [cleanResult, clean, stepSeq, stepSwallow, hI, hT]

theorem clean_fst (opts : CreateEffectCleanerOpts) (store : Store)
    (s : GuardState) : (clean opts store s).1 = { stalled := true } := rfl

theorem stepState_stalled (op : GuardOp) (s : GuardState) :
    (stepState op s).stalled = (s.stalled || op.isClean) := by
  cases op with
  | wrapperCall f t a =>
    simp [stepState, wrapperInvoke_fst, GuardOp.isClean]
  | cleanCall opts store =>
    simp [stepState, clean_fst, GuardOp.isClean]

theorem runOps_stalled_mono (ops : List GuardOp) (s : GuardState)
    (h : s.stalled = true) : (runOps ops s).stalled = true := by
  induction ops generalizing s with
  | nil => exact h
  | cons op rest ih =>
    show (runOps rest (stepState op s)).stalled = true
    exact ih _ (by rw [stepState_stalled, h, Bool.true_or])

theorem filter_timerClear_abort (opts : CreateEffectCleanerOpts) :
    (abortStep opts).1.filter CleanEvent.isTimerClear = [] := by
  unfold abortStep
  cases opts.abortController with
  | none => rfl
  | some ac => cases ac with
    | mk ab => cases ab <;> rfl

theorem filter_timerClear_cancel (opts : CreateEffectCleanerOpts) :
    (cancelStep opts).1.filter CleanEvent.isTimerClear = [] := by
  unfold cancelStep
  cases opts.cancelTokenSource with
  | none => rfl
  | some cts => cases cts with
    | mk cc => cases cc <;> rfl

theorem filter_timerClear_callback (opts : CreateEffectCleanerOpts) :
    (callbackStep opts).1.filter CleanEvent.isTimerClear = [] := by
  unfold callbackStep
  cases opts.callback <;> rfl

theorem filter_intervalCleared (l : List (String × Int)) :
    (l.map fun kv => CleanEvent.intervalCleared kv.2).filter
        CleanEvent.isTimerClear =
      l.map fun kv => CleanEvent.intervalCleared kv.2 := by
  induction l with
  | nil => rfl
  | cons kv rest ih => simp [CleanEvent.isTimerClear, ih]

theorem filter_timeoutCleared (l : List (String × Int)) :
    (l.map fun kv => CleanEvent.timeoutCleared kv.2).filter
        CleanEvent.isTimerClear =
      l.map fun kv => CleanEvent.timeoutCleared kv.2 := by
  induction l with
  | nil => rfl
  | cons kv rest ih => simp [CleanEvent.isTimerClear, ih]

theorem intervalStep_fst (opts : CreateEffectCleanerOpts) (store : Store) :
    (intervalStep opts store).1 =
      (intervalEntries opts store).map fun kv =>
        CleanEvent.intervalCleared kv.2 := by
  unfold intervalStep intervalEntries
  cases opts.intervalIds <;> rfl

theorem timeoutStep_fst (opts : CreateEffectCleanerOpts) (store : Store) :
    (timeoutStep opts store).1 =
      (timeoutEntries opts store).map fun kv =>
        CleanEvent.timeoutCleared kv.2 := by
  unfold timeoutStep timeoutEntries
  cases opts.timeoutIds <;> rfl

theorem timerClears_eq (opts : CreateEffectCleanerOpts) (store : Store)
    (s : GuardState) :
    (cleanEvents opts store s).filter CleanEvent.isTimerClear =
      ((intervalEntries opts store).map fun kv =>
        CleanEvent.intervalCleared kv.2) ++
      ((timeoutEntries opts store).map fun kv =>
        CleanEvent.timeoutCleared kv.2) := by
  rw [cleanEvents_shape]
  simp only [List.filter_cons, List.filter_append]
  rw [filter_timerClear_abort, filter_timerClear_cancel,
    filter_timerClear_callback, intervalStep_fst, timeoutStep_fst,
    filter_intervalCleared, filter_timeoutCleared]
  simp [CleanEvent.isTimerClear]

theorem find?_map_set (k : String) (v : Entry) (o : List (String × Entry)) :
    ((o.map fun p => if p.1 = k then (k, v) else p).find? fun p => p.1 = k) =
      if o.any (fun p => p.1 = k) then some (k, v) else none := by
  induction o with
  | nil => rfl
  | cons p rest ih =>
    rw [List.map_cons, List.any_cons]
    by_cases hp : p.1 = k
    · rw [if_pos hp, List.find?_cons_of_pos _ (by simp), decide_eq_true hp,
        Bool.true_or, if_pos rfl]
    · rw [if_neg hp, List.find?_cons_of_neg _ (by simp [hp]), ih,
        decide_eq_false hp, Bool.false_or]

theorem find?_map_set_ne (k k2 : String) (v : Entry)
    (o : List (String × Entry)) (h : k2 ≠ k) :
    ((o.map fun p => if p.1 = k2 then (k2, v) else p).find? fun p => p.1 = k) =
      o.find? fun p => p.1 = k := by
  induction o with
  | nil => rfl
  | cons p rest ih =>
    rw [List.map_cons]
    by_cases hp : p.1 = k2
    · have hpk : ¬(p.1 = k) := by rw [hp]; exact h
      rw [if_pos hp, List.find?_cons_of_neg _ (by simp [h]),
        List.find?_cons_of_neg _ (by simp [hpk]), ih]
    · rw [if_neg hp]
      by_cases hpk : p.1 = k
      · rw [List.find?_cons_of_pos _ (by simp [hpk]),
          List.find?_cons_of_pos _ (by simp [hpk])]
      · rw [List.find?_cons_of_neg _ (by simp [hpk]),
          List.find?_cons_of_neg _ (by simp [hpk]), ih]

theorem getProp_setProp_self (o : List (String × Entry)) (k : String)
    (v : Entry) : getProp (setProp o k v) k = some v := by
  unfold setProp getProp
  by_cases h : (o.any fun p => p.1 = k) = true
  · rw [if_pos h, find?_map_set, if_pos h]
    rfl
  · rw [if_neg h, List.find?_append]
    have hnone : (o.find? fun p => decide (p.1 = k)) = none := by
      rw [List.find?_eq_none]
      intro x hx hpx
      exact h (List.any_eq_true.mpr ⟨x, hx, hpx⟩)
    rw [hnone]
    simp

theorem getProp_setProp_ne (o : List (String × Entry)) (k k2 : String)
    (v : Entry) (h : k2 ≠ k) : getProp (setProp o k2 v) k = getProp o k := by
  unfold setProp getProp
  by_cases ha : (o.any fun p => p.1 = k2) = true
  · rw [if_pos ha, find?_map_set_ne _ _ _ _ h]
  · rw [if_neg ha, List.find?_append]
    have h1 : (([(k2, v)] : List (String × Entry)).find?
        fun p => decide (p.1 = k)) = none := by
      simp [h]
    rw [h1]
    cases o.find? fun p => decide (p.1 = k) <;> rfl

theorem buildProxies_foldl_notMem (keys : List String)
    (acc : List (String × Entry)) (k : String) (hk : k ∉ keys) :
    getProp (keys.foldl
      (fun result key => setProp result key (Entry.proxy key)) acc) k =
      getProp acc k := by
  induction keys generalizing acc with
  | nil => rfl
  | cons key rest ih =>
    have hne : key ≠ k := fun he => hk (he ▸ List.mem_cons_self key rest)
    have hkr : k ∉ rest := fun hr => hk (List.mem_cons_of_mem key hr)
    show getProp (rest.foldl _ (setProp acc key (Entry.proxy key))) k = _
    rw [ih _ hkr, getProp_setProp_ne _ _ _ _ hne]

theorem buildProxies_foldl_mem (keys : List String)
    (acc : List (String × Entry)) (k : String) (hk : k ∈ keys) :
    getProp (keys.foldl
      (fun result key => setProp result key (Entry.proxy key)) acc) k =
      some (Entry.proxy k) := by
  induction keys generalizing acc with
  | nil => cases hk
  | cons key rest ih =>
    by_cases hr : k ∈ rest
    · exact ih _ hr
    · have hke : k = key := by
        cases List.mem_cons.mp hk with
        | inl h => exact h
        | inr h => exact absurd h hr
      subst hke
      show getProp (rest.foldl _ (setProp acc k (Entry.proxy k))) k = _
      rw [buildProxies_foldl_notMem rest _ k hr, getProp_setProp_self]

theorem buildProxies_getProp (keys : List String) (k : String)
    (hk : k ∈ keys) :
    getProp (buildProxies keys) k = some (Entry.proxy k) :=
  buildProxies_foldl_mem keys [] k hk

theorem cleanResult_ok_of_callbackSafe (opts : CreateEffectCleanerOpts)
    (store : Store) (s : GuardState)
    (h : callbackSafe opts.callback = true) :
    cleanResult opts store s = Except.ok () := by
  rw [cleanResult_eq]
  unfold callbackStep
  cases hcb : opts.callback with
  | none => rfl
  | some cb =>
    cases cb with
    | ok u => rfl
    | error e =>
      rw [hcb] at h
      exact Bool.noConfusion h

/-! ## Claim theorems -/

/-- Claim C1: for every mutator set and every wrapped mutator, once
clean() has been invoked — regardless of any operations performed
afterwards — every subsequent call to a wrapped mutator returns
immediately with no value (JavaScript undefined), never invokes the
original function (its call list is empty), and never throws. -/
theorem wrapper_inert_after_clean (opts : CreateEffectCleanerOpts)
    (store : Store) (s : GuardState) (ops : List GuardOp) (f : Fn)
    (thisArg : Value) (args : List Value) :
    wrapperInvoke (runOps ops (stepState (GuardOp.cleanCall opts store) s))
        f thisArg args =
      (runOps ops (stepState (GuardOp.cleanCall opts store) s), [],
        Except.ok Value.undef) := by
  have hst : (runOps ops
      (stepState (GuardOp.cleanCall opts store) s)).stalled = true :=
    runOps_stalled_mono _ _
      (by rw [stepState_stalled]; simp [GuardOp.isClean])
  simp [wrapperInvoke, hst]

/-- Claim C2: every call to a wrapped mutator made while stalled is
still false forwards synchronously to the original function, exactly
once, with the identical receiver and argument list, and returns the
original result (value or throw) unchanged. -/
theorem wrapper_forwards_before_clean (s : GuardState) (f : Fn)
    (thisArg : Value) (args : List Value) (h : s.stalled = false) :
    wrapperInvoke s f thisArg args =
      (s, [(thisArg, args)], f thisArg args) := by
  simp [wrapperInvoke, h]

theorem wrapper_forwards_before_clean_witness :
    initialState.stalled = false ∧
    wrapperInvoke initialState sampleFn (Value.num 1)
        [Value.num 2, Value.num 3] =
      (initialState, [(Value.num 1, [Value.num 2, Value.num 3])],
        sampleFn (Value.num 1) [Value.num 2, Value.num 3]) :=
  ⟨rfl, wrapper_forwards_before_clean initialState sampleFn (Value.num 1)
    [Value.num 2, Value.num 3] rfl⟩

/-- Claim C3 counterexample: with an onClean callback that throws, the
exception escapes clean() — the source invokes callback() outside any
try/catch — so clean() does not never-raise over all configurations. -/
theorem clean_raises_with_throwing_onClean :
    cleanResult throwingCallbackOpts emptyStore initialState =
      Except.error "boom" := rfl

/-- Claim C3 (amended): clean() raises no error for every configuration
whose onClean callback does not throw; failures raised by abort() and
cancel() are caught individually and discarded. -/
theorem clean_never_raises_given_safe_callback
    (opts : CreateEffectCleanerOpts) (store : Store) (s : GuardState)
    (h : callbackSafe opts.callback = true) :
    cleanResult opts store s = Except.ok () :=
  cleanResult_ok_of_callbackSafe opts store s h

theorem clean_never_raises_given_safe_callback_witness :
    callbackSafe throwingSourcesOpts.callback = true ∧
    cleanResult throwingSourcesOpts timersStore initialState =
      Except.ok () :=
  ⟨rfl, clean_never_raises_given_safe_callback throwingSourcesOpts
    timersStore initialState rfl⟩

/-- Claim C4 counterexample: with an abort source and an onClean
callback supplied, a second clean() call aborts again and invokes the
callback again — duplicated side effects observable to the supplied
resources. -/
theorem second_clean_repeats_side_effects :
    CleanEvent.abortCalled ∈
        cleanEvents dupOpts emptyStore stateAfterFirstClean ∧
      CleanEvent.callbackCalled ∈
        cleanEvents dupOpts emptyStore stateAfterFirstClean := by
  decide

/-- Claim C4 (amended): a second clean() call re-executes every teardown
step — abort, cancel, timer clears, onClean — producing exactly the same
events, result and state as the first call (so nothing new is raised
beyond what the first call already raised), and the guard remains
stalled. -/
theorem clean_second_call_replays_first (opts : CreateEffectCleanerOpts)
    (store : Store) (s : GuardState) :
    clean opts store ((clean opts store s).1) = clean opts store s ∧
    (clean opts store ((clean opts store s).1)).1.stalled = true :=
  ⟨rfl, rfl⟩

/-- Claim C5 counterexample: with timeout handle 123 and interval handle
456 registered, clean() emits the interval clear before the timeout
clear, refuting the claimed timeouts-first order. -/
theorem interval_clear_precedes_timeout_clear :
    cleanEvents timersOnlyOpts timersStore initialState =
      [CleanEvent.setStalled, CleanEvent.intervalCleared 456,
        CleanEvent.timeoutCleared 123] := rfl

/-- Claim C5 (amended): during teardown clean() clears every entry of
the interval mapping first, then every entry of the timeout mapping;
its timer-clearing side effects are exactly those, in that order. -/
theorem clean_clears_intervals_then_timeouts
    (opts : CreateEffectCleanerOpts) (store : Store) (s : GuardState) :
    (cleanEvents opts store s).filter CleanEvent.isTimerClear =
      ((intervalEntries opts store).map fun kv =>
        CleanEvent.intervalCleared kv.2) ++
      ((timeoutEntries opts store).map fun kv =>
        CleanEvent.timeoutCleared kv.2) :=
  timerClears_eq opts store s

/-- Claim C6: if abort() throws when clean() runs, the cancel step, the
interval and timeout clears and the onClean callback still all execute
(the event trace is exactly the full teardown trace), and no error
escapes clean(), provided the callback itself does not throw. -/
theorem clean_survives_abort_throw (opts : CreateEffectCleanerOpts)
    (store : Store) (s : GuardState) (ac : AbortControllerM) (e : Err)
    (hac : opts.abortController = some ac)
    (hab : ac.abort = some (Except.error e))
    (hcb : callbackSafe opts.callback = true) :
    cleanResult opts store s = Except.ok () ∧
    cleanEvents opts store s =
      CleanEvent.setStalled :: CleanEvent.abortCalled ::
        ((cancelStep opts).1 ++ ((intervalStep opts store).1 ++
          ((timeoutStep opts store).1 ++ (callbackStep opts).1))) := by
  constructor
  · exact cleanResult_ok_of_callbackSafe opts store s hcb
  · rw [cleanEvents_shape]
    have habort : (abortStep opts).1 = [CleanEvent.abortCalled] := by
      simp [abortStep, hac, hab]
    rw [habort]
    rfl

theorem clean_survives_abort_throw_witness :
    abortThrowScenarioOpts.abortController = some abortX ∧
    abortX.abort = some (Except.error "x") ∧
    callbackSafe abortThrowScenarioOpts.callback = true ∧
    (cleanResult abortThrowScenarioOpts timersStore initialState =
        Except.ok () ∧
      cleanEvents abortThrowScenarioOpts timersStore initialState =
        CleanEvent.setStalled :: CleanEvent.abortCalled ::
          ((cancelStep abortThrowScenarioOpts).1 ++
            ((intervalStep abortThrowScenarioOpts timersStore).1 ++
              ((timeoutStep abortThrowScenarioOpts timersStore).1 ++
                (callbackStep abortThrowScenarioOpts).1)))) :=
  ⟨rfl, rfl, rfl, clean_survives_abort_throw abortThrowScenarioOpts
    timersStore initialState abortX "x" rfl rfl rfl⟩

/-- Claim C7: setting the stalled flag is the first action of clean()
and is unconditional: the resulting state has the flag set whatever the
configuration does, the first emitted event is the flag write, and every
wrapped mutator invoked on the post-clean state is inert. -/
theorem clean_sets_stalled_first (opts : CreateEffectCleanerOpts)
    (store : Store) (s : GuardState) :
    (clean opts store s).1.stalled = true ∧
    (cleanEvents opts store s).head? = some CleanEvent.setStalled ∧
    ∀ (f : Fn) (thisArg : Value) (args : List Value),
      wrapperInvoke (clean opts store s).1 f thisArg args =
        ((clean opts store s).1, [], Except.ok Value.undef) := by
  refine ⟨rfl, ?_, ?_⟩
  · rw [cleanEvents_shape]
    rfl
  · intro f thisArg args
    simp [wrapperInvoke, clean_fst]

/-- Claim C8: the timer mappings are read at teardown time, not
snapshotted at construction (construction takes no store at all):
whatever the mappings held before, after the caller mutates the same
mapping objects in place, clean() clears exactly the entries present at
the moment it runs. -/
theorem timer_maps_read_at_teardown (opts : CreateEffectCleanerOpts)
    (store : Store) (s : GuardState) (rt ri : Nat)
    (mt mi : List (String × Int)) (ht : opts.timeoutIds = some rt)
    (hi : opts.intervalIds = some ri) (hne : ri ≠ rt) :
    (cleanEvents opts (updateStore (updateStore store rt mt) ri mi)
        s).filter CleanEvent.isTimerClear =
      (mi.map fun kv => CleanEvent.intervalCleared kv.2) ++
      (mt.map fun kv => CleanEvent.timeoutCleared kv.2) := by
  rw [timerClears_eq]
  have h1 : intervalEntries opts
      (updateStore (updateStore store rt mt) ri mi) = mi := by
    unfold intervalEntries
    simp only [hi]
    simp [updateStore]
  have h2 : timeoutEntries opts
      (updateStore (updateStore store rt mt) ri mi) = mt := by
    unfold timeoutEntries
    simp only [ht]
    simp [updateStore, Ne.symm hne]
  rw [h1, h2]

theorem timer_maps_read_at_teardown_witness :
    timersOnlyOpts.timeoutIds = some 0 ∧
    timersOnlyOpts.intervalIds = some 1 ∧
    (1 : Nat) ≠ 0 ∧
    (cleanEvents timersOnlyOpts
        (updateStore (updateStore emptyStore 0 [("a", 123)]) 1
          [("b", 456)]) initialState).filter CleanEvent.isTimerClear =
      ([(("b" : String), (456 : Int))].map fun kv =>
        CleanEvent.intervalCleared kv.2) ++
      ([(("a" : String), (123 : Int))].map fun kv =>
        CleanEvent.timeoutCleared kv.2) :=
  ⟨rfl, rfl, by decide,
    timer_maps_read_at_teardown timersOnlyOpts emptyStore initialState 0 1
      [("a", 123)] [("b", 456)] rfl rfl (by decide)⟩

/-- Claim C9: the shared guard state is the single boolean stalled,
false at construction; a wrapped-mutator call leaves it exactly as it
was and a clean() call sets it, so the only transition is false to true,
it never reverts, and every behaviour is a function of the current
state. -/
theorem stalled_transitions_once (keys : List String) (op : GuardOp)
    (s : GuardState) :
    (createEffectCleaner keys).2.stalled = false ∧
    (stepState op s).stalled = (s.stalled || op.isClean) :=
  ⟨rfl, stepState_stalled op s⟩

/-- Claim C10: when the mutator set itself contains a key named clean,
the reduce step first builds an intercepting proxy under that key, and
the subsequent assignment overwrites it with the teardown function, so
the supplied mutator is unreachable through the returned mapping. -/
theorem clean_key_overwrites_proxy (keys : List String)
    (h : "clean" ∈ keys) :
    getProp (buildProxies keys) "clean" = some (Entry.proxy "clean") ∧
    getProp (createEffectCleaner keys).1 "clean" =
      some Entry.cleanEntry :=
  ⟨buildProxies_getProp keys "clean" h,
    getProp_setProp_self (buildProxies keys) "clean" Entry.cleanEntry⟩

theorem clean_key_overwrites_proxy_witness :
    "clean" ∈ ["setUser", "clean"] ∧
    (getProp (buildProxies ["setUser", "clean"]) "clean" =
        some (Entry.proxy "clean") ∧
      getProp (createEffectCleaner ["setUser", "clean"]).1 "clean" =
        some Entry.cleanEntry) :=
  ⟨by decide, clean_key_overwrites_proxy ["setUser", "clean"] (by decide)⟩
